import Mathlib

/-!
Verification development for the midi-monitor-controller repository.

The Python sources are shallowly embedded: machine integers become `Int`
(Python ints are unbounded anyway), Python dicts become association lists,
stateful methods become explicit state-passing functions, and fallible
device I/O is modelled by threading the success booleans of the underlying
protocol calls as explicit parameters while recording the attempted
operations in an event trace.  Python float arithmetic (`int(x * f)` style
scaling) is modelled by exact rationals with truncation toward zero; every
concrete input appearing in a theorem below is one where the binary-float
computation of the source is exact, so the rational model agrees with it
there.
-/

namespace MidiMonitor

/-- Python `int()` applied to a rational: truncation toward zero.
`Int.tdiv` is truncating division and `q.den` is positive, so
`q.num.tdiv q.den` is exactly that. -/
def pyInt (q : ℚ) : Int := Int.tdiv q.num (q.den : Int)

/-- Python `abs` on integers. -/
def pyAbs (x : Int) : Int := if x < 0 then -x else x

/-! ## src/virtual_knob.py -/

/-- `VirtualKnob` from src/virtual_knob.py: named position with
inclusive `min`/`max` limits. -/
structure VirtualKnob where
  name : String
  position : Int
  min : Int
  max : Int
  deriving DecidableEq

/-- `VirtualKnob.adjust`: clamp `position + delta` into `[min, max]`;
`hit_limit` is true when the clamped position differs from the unclamped
target and `delta ≠ 0`.  Returns the updated knob together with the pair
`(new_position, hit_limit)` the Python method returns. -/
def VirtualKnob.adjust (k : VirtualKnob) (delta : Int) : VirtualKnob × Int × Bool :=
  let old_position := k.position
  let newPos := Max.max k.min (Min.min k.max (k.position + delta))
  let hit_limit := (newPos != old_position + delta) && (delta != 0)
  ({ k with position := newPos }, newPos, hit_limit)

/-- `VirtualKnob.set`: clamp `value` into `[min, max]`, assign it and
return it.  The Python method returns only the clamped position — its
return type carries no limit flag. -/
def VirtualKnob.set (k : VirtualKnob) (value : Int) : VirtualKnob × Int :=
  let newPos := Max.max k.min (Min.min k.max value)
  ({ k with position := newPos }, newPos)

/-! ## src/control_mappings.py -/

/-- `KnobState` from src/control_mappings.py (the second, dataclass-based
knob implementation). -/
structure KnobState where
  position : Int
  min_val : Int
  max_val : Int
  name : String
  deriving DecidableEq

/-- `KnobState.adjust` from src/control_mappings.py: clamps like
`VirtualKnob.adjust`, but computes `hit_limit` as
`(new == max_val or new == min_val) and old != new`. -/
def KnobState.adjust (s : KnobState) (delta : Int) : KnobState × Int × Bool :=
  let old := s.position
  let newPos := Max.max s.min_val (Min.min s.max_val (s.position + delta))
  let hit_limit := ((newPos == s.max_val) || (newPos == s.min_val)) && (old != newPos)
  ({ s with position := newPos }, newPos, hit_limit)

/-! ## src/midi_handler.py -/

/-- Python-dict lookup on an association list (`control_id in dict` /
`dict[control_id]`). -/
def dictLookup : List (Int × Int) → Int → Option Int
  | [], _ => none
  | (k, v) :: rest, key => if k = key then some v else dictLookup rest key

/-- Python-dict assignment `dict[key] = v` on an association list. -/
def dictInsert : List (Int × Int) → Int → Int → List (Int × Int)
  | [], key, v => [(key, v)]
  | (k, w) :: rest, key, v =>
    if k = key then (k, v) :: rest else (k, w) :: dictInsert rest key v

/-- The wraparound correction of `MIDIHandler.calculate_absolute_delta`:
if the raw difference exceeds 64 subtract 128, if it is below -64 add
128. -/
def wrapCorrect (raw_delta : Int) : Int :=
  if raw_delta > 64 then raw_delta - 128
  else if raw_delta < -64 then raw_delta + 128
  else raw_delta

/-- The wraparound-corrected raw delta between two consecutive absolute
samples (the value of `raw_delta` after lines 87-103 of
src/midi_handler.py, before inversion and scaling). -/
def correctedRawDelta (previous current : Int) : Int :=
  wrapCorrect (current - previous)

/-- `MIDIHandler.calculate_absolute_delta`: state-passing version.  The
state is the `knob_previous_values` dict.  On first observation of an id
the sample is stored and delta 0 returned; otherwise the raw difference
is wraparound-corrected, the sample stored, and the delta inverted and
scaled by `knob_sensitivity` with Python-`int` truncation. -/
def calculate_absolute_delta (sensitivity : ℚ) (prev : List (Int × Int))
    (control_id current_value : Int) : Int × List (Int × Int) :=
  match dictLookup prev control_id with
  | none => (0, dictInsert prev control_id current_value)
  | some previous =>
    let raw_delta := correctedRawDelta previous current_value
    let prev2 := dictInsert prev control_id current_value
    let inverted_delta := -raw_delta
    let scaled_delta := pyInt ((inverted_delta : ℚ) * sensitivity)
    (scaled_delta, prev2)

/-- `MIDIEvent` dataclass from src/midi_handler.py. -/
structure MIDIEvent where
  control_type : String
  control_id : Int
  value : Int
  delta : Option Int := none
  deriving DecidableEq

/-- The shapes of inbound mido messages that `read_event` inspects. -/
inductive MidoMsg where
  | control_change (control : Int) (value : Int)
  | note_on (note : Int) (velocity : Int)
  | note_off (note : Int) (velocity : Int)
  | other
  deriving DecidableEq

/-- `MIDIHandler.read_event`, with the blocking `receive()` replaced by an
explicit message argument: control-change messages become knob events via
`calculate_absolute_delta`; note-on with positive velocity becomes a
button event; note-on with velocity 0, note-off and anything else yield
no event. -/
def read_event (sensitivity : ℚ) (prev : List (Int × Int)) (msg : MidoMsg) :
    Option MIDIEvent × List (Int × Int) :=
  match msg with
  | MidoMsg.control_change control value =>
    let r := calculate_absolute_delta sensitivity prev control value
    (some ⟨"knob", control, value, some r.1⟩, r.2)
  | MidoMsg.note_on note velocity =>
    if velocity > 0 then (some ⟨"button", note, velocity, none⟩, prev)
    else (none, prev)
  | MidoMsg.note_off _ _ => (none, prev)
  | MidoMsg.other => (none, prev)

/-! ## src/monitor_controller.py

Each mutating operation is embedded as a function from its numeric input
and the success booleans of the underlying protocol calls to the returned
boolean together with a trace of the attempted device operations.  A
`set_vcp_feature` call that raises is still recorded as an attempt; the
boolean parameter for it is `false`. -/

/-- `MonitorController._vcp_codes`: protocol feature codes keyed by
feature name. -/
def vcp_codes (feature : String) : Nat :=
  if feature = "brightness" then 0x10
  else if feature = "contrast" then 0x12
  else if feature = "red_gain" then 0x16
  else if feature = "green_gain" then 0x18
  else if feature = "blue_gain" then 0x1A
  else if feature = "sharpness" then 0x87
  else if feature = "local_dimming" then 0xEA
  else 0

/-- Observable device operations attempted by `MonitorController`. -/
inductive DevEv where
  | vcpWrite (code : Nat) (value : Int)
  | disconnect
  | connectAttempt
  deriving DecidableEq

/-- `MonitorController.set_brightness`: clamp to `[0, 100]`, attempt the
write (`ok1`); on failure run `reconnect()` — a disconnect followed by a
connect attempt (`okReconnect`) — and retry the write once (`ok2`); a
reconnect failure or a second write failure returns `false`. -/
def set_brightness (value : Int) (ok1 okReconnect ok2 : Bool) :
    Bool × List DevEv :=
  let v := Max.max 0 (Min.min 100 value)
  if ok1 then (true, [DevEv.vcpWrite (vcp_codes "brightness") v])
  else if okReconnect then
    (ok2, [DevEv.vcpWrite (vcp_codes "brightness") v, DevEv.disconnect,
           DevEv.connectAttempt, DevEv.vcpWrite (vcp_codes "brightness") v])
  else
    (false, [DevEv.vcpWrite (vcp_codes "brightness") v, DevEv.disconnect,
             DevEv.connectAttempt])

/-- `MonitorController.set_blue_gain`: clamp to `[0, 100]` and attempt a
single write of the blue-gain feature inside one try/except; `false` on
failure, with no reconnect and no retry. -/
def set_blue_gain (value : Int) (ok : Bool) : Bool × List DevEv :=
  let v := Max.max 0 (Min.min 100 value)
  (ok, [DevEv.vcpWrite (vcp_codes "blue_gain") v])

/-- `MonitorController.set_night_mode`: derives
`red = 100`, `green = 60 + int(intensity / 100 * 40)`,
`blue = 20 + int(intensity / 100 * 80)` — the intensity argument is NOT
clamped — and issues the three gain writes in sequence inside one
session; the first failure aborts the remaining writes and the whole
operation returns `false` with no reconnect and no retry. -/
def set_night_mode (intensity : Int) (ok1 ok2 ok3 : Bool) :
    Bool × List DevEv :=
  let red : Int := 100
  let green : Int := 60 + pyInt ((intensity : ℚ) / 100 * 40)
  let blue : Int := 20 + pyInt ((intensity : ℚ) / 100 * 80)
  if ok1 then
    if ok2 then
      if ok3 then
        (true, [DevEv.vcpWrite (vcp_codes "red_gain") red,
                DevEv.vcpWrite (vcp_codes "green_gain") green,
                DevEv.vcpWrite (vcp_codes "blue_gain") blue])
      else
        (false, [DevEv.vcpWrite (vcp_codes "red_gain") red,
                 DevEv.vcpWrite (vcp_codes "green_gain") green,
                 DevEv.vcpWrite (vcp_codes "blue_gain") blue])
    else
      (false, [DevEv.vcpWrite (vcp_codes "red_gain") red,
               DevEv.vcpWrite (vcp_codes "green_gain") green])
  else
    (false, [DevEv.vcpWrite (vcp_codes "red_gain") red])

/-- `MonitorController.set_local_dimming`: encode the boolean as 1/0 and
attempt a single write; `false` on failure, with no reconnect and no
retry. -/
def set_local_dimming (enabled : Bool) (ok : Bool) : Bool × List DevEv :=
  let value : Int := if enabled then 1 else 0
  (ok, [DevEv.vcpWrite (vcp_codes "local_dimming") value])

/-- Count of write attempts in a device trace. -/
def countWrites (tr : List DevEv) : Nat :=
  tr.countP (fun e => match e with
    | DevEv.vcpWrite _ _ => true
    | _ => false)

/-! ## src/config.py -/

/-- The configuration fields of `Config` that the control mapper reads,
with their defaults from src/config.py. -/
structure Config where
  knob_brightness : Int := 1
  knob_night_mode : Int := 2
  button_local_dimming : Int := 8
  button_hdr : Int := 9
  knob_sensitivity : ℚ := 1
  always_start_calibrated : Bool := true
  deriving DecidableEq

/-! ## src/control_mapper.py

Handlers are embedded as functions from the mapper state to the new
mapper state plus the list of monitor set-operations invoked and the list
of outbound LED commands.  Handlers that invoke one monitor
set-operation take its boolean result as a parameter; the source ignores
these results, which is visible here as the parameter not occurring in
the output. -/

/-- A monitor set-operation invoked by a handler. -/
inductive MonCall where
  | set_brightness (v : Int)
  | set_night_mode (v : Int)
  | set_blue_gain (v : Int)
  | set_local_dimming (b : Bool)
  deriving DecidableEq

/-- An outbound LED command (`MIDIHandler.set_led_ring` /
`set_button_led` invocation). -/
inductive MidiOut where
  | ledRing (knob_id : Int) (position : Int)
  | buttonLed (button_id : Int) (state : Bool)
  deriving DecidableEq

/-- The mutable state of `ControlMapper`. -/
structure ControlMapper where
  brightness : VirtualKnob
  night_mode : VirtualKnob
  local_dimming_enabled : Bool
  hdr_enabled : Bool
  current_night_mode_step : Int
  deriving DecidableEq

/-- `ControlMapper.__init__`: brightness knob at 75, night-mode knob at
100 (calibrated), local dimming on, HDR off, committed night-mode step
100. -/
def ControlMapper.init : ControlMapper :=
  { brightness := ⟨"Brightness", 75, 0, 100⟩
    night_mode := ⟨"Night Mode", 100, 0, 100⟩
    local_dimming_enabled := true
    hdr_enabled := false
    current_night_mode_step := 100 }

/-- `self.night_mode_steps`, the five discrete levels set in
`ControlMapper.__init__`. -/
def night_mode_steps : List Int := [0, 25, 50, 75, 100]

/-- Python `min(iterable, key=...)` over a nonempty list given as first
element plus rest: keeps the first element attaining the minimal key
(later elements replace the current best only on a strictly smaller
key). -/
def listMinByKey (key : Int → Int) (best : Int) : List Int → Int
  | [] => best
  | x :: rest =>
    if key x < key best then listMinByKey key x rest
    else listMinByKey key best rest

/-- `ControlMapper._get_night_mode_step`:
`min(self.night_mode_steps, key=lambda x: abs(x - value))`. -/
def get_night_mode_step (value : Int) : Int :=
  listMinByKey (fun x => pyAbs (x - value)) 0 [25, 50, 75, 100]

/-- `ControlMapper.handle_brightness_knob`: adjust the virtual knob,
invoke `set_brightness` with the new value (result ignored), and set the
LED ring to `int(new_val / 100 * 11)`. -/
def handle_brightness_knob (cfg : Config) (m : ControlMapper) (delta : Int)
    (write_ok : Bool) : ControlMapper × List MonCall × List MidiOut :=
  let r := m.brightness.adjust delta
  let new_val := r.2.1
  let led_pos := pyInt ((new_val : ℚ) / 100 * 11)
  ({ m with brightness := r.1 },
   [MonCall.set_brightness new_val],
   [MidiOut.ledRing cfg.knob_brightness led_pos])

/-- `ControlMapper.handle_night_mode_knob`: adjust the continuous virtual
position, quantize it, invoke `set_night_mode` only when the quantized
step differs from the committed one (result ignored), and always update
the LED ring from the unquantized position. -/
def handle_night_mode_knob (cfg : Config) (m : ControlMapper) (delta : Int)
    (write_ok : Bool) : ControlMapper × List MonCall × List MidiOut :=
  let r := m.night_mode.adjust delta
  let new_val := r.2.1
  let new_step := get_night_mode_step new_val
  let changed := new_step != m.current_night_mode_step
  let led_pos := pyInt ((new_val : ℚ) / 100 * 11)
  ({ m with night_mode := r.1
            current_night_mode_step :=
              if changed then new_step else m.current_night_mode_step },
   if changed then [MonCall.set_night_mode new_step] else [],
   [MidiOut.ledRing cfg.knob_night_mode led_pos])

/-- `ControlMapper.handle_local_dimming_button`: flip the stored boolean,
invoke `set_local_dimming` with the new value (the result is bound to a
local and never used), and set the button LED to the new boolean. -/
def handle_local_dimming_button (cfg : Config) (m : ControlMapper)
    (write_ok : Bool) : ControlMapper × List MonCall × List MidiOut :=
  let enabled := !m.local_dimming_enabled
  ({ m with local_dimming_enabled := enabled },
   [MonCall.set_local_dimming enabled],
   [MidiOut.buttonLed cfg.button_local_dimming enabled])

/-- `ControlMapper.handle_hdr_button`: a placeholder — it assigns
`hdr_enabled = False` unconditionally, invokes no monitor operation, and
sets the button LED to that stored value. -/
def handle_hdr_button (cfg : Config) (m : ControlMapper) :
    ControlMapper × List MonCall × List MidiOut :=
  ({ m with hdr_enabled := false },
   [],
   [MidiOut.buttonLed cfg.button_hdr false])

/-- `ControlMapper.handle_event` (the second, overriding definition in
src/control_mapper.py): route by control type and configured id; unmapped
ids are logged and dropped. -/
def handle_event (cfg : Config) (m : ControlMapper) (event : MIDIEvent)
    (write_ok : Bool) : ControlMapper × List MonCall × List MidiOut :=
  if event.control_type = "knob" then
    if event.control_id = cfg.knob_brightness then
      handle_brightness_knob cfg m (event.delta.getD 0) write_ok
    else if event.control_id = cfg.knob_night_mode then
      handle_night_mode_knob cfg m (event.delta.getD 0) write_ok
    else (m, [], [])
  else if event.control_type = "button" then
    if event.control_id = cfg.button_local_dimming then
      handle_local_dimming_button cfg m write_ok
    else if event.control_id = cfg.button_hdr then
      handle_hdr_button cfg m
    else (m, [], [])
  else (m, [], [])

/-- A sequence of night-mode knob adjustments, each paired with the
boolean result of any monitor operation it performs; collects the monitor
calls of the whole run. -/
def runNight (cfg : Config) (m : ControlMapper) :
    List (Int × Bool) → ControlMapper × List MonCall
  | [] => (m, [])
  | (d, ok) :: rest =>
    let r := handle_night_mode_knob cfg m d ok
    let r2 := runNight cfg r.1 rest
    (r2.1, r.2.1 ++ r2.2)

/-! ## Derived observation functions and concrete states used in the
statements below -/

/-- Count of disconnects in a device trace. -/
def countDisconnects (tr : List DevEv) : Nat :=
  tr.countP (fun e => match e with
    | DevEv.disconnect => true
    | _ => false)

/-- Count of connect attempts in a device trace. -/
def countConnects (tr : List DevEv) : Nat :=
  tr.countP (fun e => match e with
    | DevEv.connectAttempt => true
    | _ => false)

/-- The wraparound-corrected raw deltas summed along a sample path:
`sumCorrectedDeltas p [c1, c2, ...] = correctedRawDelta p c1 +
correctedRawDelta c1 c2 + ...`. -/
def sumCorrectedDeltas (prev : Int) : List Int → Int
  | [] => 0
  | c :: rest => correctedRawDelta prev c + sumCorrectedDeltas c rest

/-- All successive positions of a night-mode delta run starting at `p`
stay inside the single quantization cell `[63, 87]` of step 75. -/
def inBand (p : Int) : List (Int × Bool) → Bool
  | [] => true
  | (d, _) :: rest =>
    (decide (63 ≤ p + d) && decide (p + d ≤ 87)) && inBand (p + d) rest

/-- A consistent mapper state reached after driving the night-mode value
to 80: continuous position 80, committed step `get_night_mode_step 80 =
75`. -/
def mapperAt80 : ControlMapper :=
  { brightness := ⟨"Brightness", 75, 0, 100⟩
    night_mode := ⟨"Night Mode", 80, 0, 100⟩
    local_dimming_enabled := true
    hdr_enabled := false
    current_night_mode_step := 75 }

/-! ## Helper lemmas -/

/-- Wraparound correction preserves the value modulo 128. -/
theorem wrapCorrect_mod (x : Int) : wrapCorrect x % 128 = x % 128 := by
  unfold wrapCorrect
  split_ifs <;> omega

/-- The summed corrected deltas along a path are congruent modulo 128 to
the net displacement from the start to the last sample. -/
theorem sumCorrectedDeltas_mod (l : List Int) :
    ∀ p : Int, sumCorrectedDeltas p l % 128 = (l.getLastD p - p) % 128 := by
  induction l with
  | nil => intro p; simp [sumCorrectedDeltas]
  | cons c rest ih =>
    intro p
    have h1 := ih c
    have h2 := wrapCorrect_mod (c - p)
    simp only [sumCorrectedDeltas, correctedRawDelta, List.getLastD_cons]
    omega

/-- Inserting a key into the previous-values dict makes it the stored
baseline for that key. -/
theorem dictLookup_dictInsert_self (prev : List (Int × Int)) (id v : Int) :
    dictLookup (dictInsert prev id v) id = some v := by
  induction prev with
  | nil => simp [dictInsert, dictLookup]
  | cons hd tl ih =>
    by_cases h : hd.1 = id
    · simp [dictInsert, dictLookup, h]
    · simp [dictInsert, dictLookup, h, ih]

/-- Every value in the quantization cell `[63, 87]` quantizes to step
75. -/
theorem get_night_mode_step_eq_75 (p : Int) (h1 : 63 ≤ p) (h2 : p ≤ 87) :
    get_night_mode_step p = 75 := by
  interval_cases p <;> decide

/-! ## Claim theorems -/

/-- C1: for every `VirtualKnob` state with `min ≤ position ≤ max` and
every integer argument, `adjust delta` and `set value` leave the stored
position within `[min, max]`; `set value` assigns and returns exactly the
clamped value `clamp value min max` (its return type carries no
limit-hit flag at all). -/
theorem C1_knob_invariant (k : VirtualKnob) (delta value : Int)
    (h1 : k.min ≤ k.position) (h2 : k.position ≤ k.max) :
    (k.min ≤ (k.adjust delta).1.position ∧ (k.adjust delta).1.position ≤ k.max) ∧
    (k.min ≤ (k.set value).1.position ∧ (k.set value).1.position ≤ k.max) ∧
    (k.set value).2 = Max.max k.min (Min.min k.max value) ∧
    (k.set value).1.position = (k.set value).2 := by
  refine ⟨⟨?_, ?_⟩, ⟨?_, ?_⟩, rfl, rfl⟩ <;>
    · simp only [VirtualKnob.adjust, VirtualKnob.set]
      omega

/-- C1 witness: the theorem applied to the brightness knob at 75 with
delta 50 and set value 120. -/
theorem C1_knob_invariant_witness :
    ((⟨"Brightness", 75, 0, 100⟩ : VirtualKnob).min ≤
        ((⟨"Brightness", 75, 0, 100⟩ : VirtualKnob).adjust 50).1.position ∧
      ((⟨"Brightness", 75, 0, 100⟩ : VirtualKnob).adjust 50).1.position ≤
        (⟨"Brightness", 75, 0, 100⟩ : VirtualKnob).max) ∧
    ((⟨"Brightness", 75, 0, 100⟩ : VirtualKnob).min ≤
        ((⟨"Brightness", 75, 0, 100⟩ : VirtualKnob).set 120).1.position ∧
      ((⟨"Brightness", 75, 0, 100⟩ : VirtualKnob).set 120).1.position ≤
        (⟨"Brightness", 75, 0, 100⟩ : VirtualKnob).max) ∧
    ((⟨"Brightness", 75, 0, 100⟩ : VirtualKnob).set 120).2 =
      Max.max (⟨"Brightness", 75, 0, 100⟩ : VirtualKnob).min
        (Min.min (⟨"Brightness", 75, 0, 100⟩ : VirtualKnob).max 120) ∧
    ((⟨"Brightness", 75, 0, 100⟩ : VirtualKnob).set 120).1.position =
      ((⟨"Brightness", 75, 0, 100⟩ : VirtualKnob).set 120).2 :=
  C1_knob_invariant ⟨"Brightness", 75, 0, 100⟩ 50 120 (by decide) (by decide)

/-- C2 counterexample: the claim asserts `hit_limit` is true iff
`delta ≠ 0` and `position + delta` lies outside `[min, max]`, for both
adjust implementations.  For `KnobState` at position 100 in `[0, 100]`
with delta 5 the claim demands `hit_limit = true` (the condition holds),
but `KnobState.adjust` returns `hit_limit = false` because the clamped
position did not change. -/
theorem C2_counterexample :
    ((KnobState.adjust ⟨100, 0, 100, "Night Mode"⟩ 5).2.2 = false) ∧
    (5 : Int) ≠ 0 ∧ ¬ ((0 : Int) ≤ 100 + 5 ∧ (100 : Int) + 5 ≤ 100) := by
  decide

/-- C2 amended: both implementations return the clamped new position;
`VirtualKnob.adjust` reports `hit_limit` iff `delta ≠ 0` and the
unclamped target lies outside `[min, max]` (as the claim states), while
`KnobState.adjust` reports `hit_limit` iff the new position equals a
bound and differs from the old position. -/
theorem C2_adjust_hit_limit (k : VirtualKnob) (s : KnobState) (delta : Int)
    (hk1 : k.min ≤ k.position) (hk2 : k.position ≤ k.max) :
    ((k.adjust delta).2.1 = Max.max k.min (Min.min k.max (k.position + delta)) ∧
     ((k.adjust delta).2.2 = true ↔
       delta ≠ 0 ∧ (k.position + delta < k.min ∨ k.max < k.position + delta))) ∧
    ((s.adjust delta).2.1 = Max.max s.min_val (Min.min s.max_val (s.position + delta)) ∧
     ((s.adjust delta).2.2 = true ↔
       ((s.adjust delta).2.1 = s.max_val ∨ (s.adjust delta).2.1 = s.min_val) ∧
         s.position ≠ (s.adjust delta).2.1)) := by
  refine ⟨⟨rfl, ?_⟩, rfl, ?_⟩
  · simp only [VirtualKnob.adjust, Bool.and_eq_true, bne_iff_ne, ne_eq]
    omega
  · simp only [KnobState.adjust, Bool.and_eq_true, Bool.or_eq_true,
      beq_iff_eq, bne_iff_ne, ne_eq]

/-- C2 witness: the amended theorem applied to a `VirtualKnob` at 75 in
`[0, 100]` and the `KnobState` of the counterexample, with delta 5. -/
theorem C2_adjust_hit_limit_witness :
    (((⟨"Brightness", 75, 0, 100⟩ : VirtualKnob).adjust 5).2.1 =
        Max.max (0 : Int) (Min.min 100 (75 + 5)) ∧
      (((⟨"Brightness", 75, 0, 100⟩ : VirtualKnob).adjust 5).2.2 = true ↔
        (5 : Int) ≠ 0 ∧ ((75 : Int) + 5 < 0 ∨ (100 : Int) < 75 + 5))) ∧
    (((⟨100, 0, 100, "Night Mode"⟩ : KnobState).adjust 5).2.1 =
        Max.max (0 : Int) (Min.min 100 (100 + 5)) ∧
      (((⟨100, 0, 100, "Night Mode"⟩ : KnobState).adjust 5).2.2 = true ↔
        (((⟨100, 0, 100, "Night Mode"⟩ : KnobState).adjust 5).2.1 = 100 ∨
          ((⟨100, 0, 100, "Night Mode"⟩ : KnobState).adjust 5).2.1 = 0) ∧
          (100 : Int) ≠ ((⟨100, 0, 100, "Night Mode"⟩ : KnobState).adjust 5).2.1)) :=
  C2_adjust_hit_limit ⟨"Brightness", 75, 0, 100⟩ ⟨100, 0, 100, "Night Mode"⟩ 5
    (by decide) (by decide)

/-- C7: for every integer value in `[0, 100]`, quantization returns a
member of the step list at minimal absolute distance, any equidistant tie
resolving to the lower step; in particular 62 quantizes to 50 and 37 to
25. -/
theorem C7_quantize (v : Int) (h1 : 0 ≤ v) (h2 : v ≤ 100) :
    get_night_mode_step v ∈ night_mode_steps ∧
    (∀ t ∈ night_mode_steps, pyAbs (get_night_mode_step v - v) ≤ pyAbs (t - v)) ∧
    (∀ t ∈ night_mode_steps,
      pyAbs (t - v) = pyAbs (get_night_mode_step v - v) → get_night_mode_step v ≤ t) ∧
    get_night_mode_step 62 = 50 ∧ get_night_mode_step 37 = 25 := by
  refine ⟨?_, ?_, ?_, by decide, by decide⟩ <;>
    (interval_cases v <;> decide)

/-- C7 witness: the theorem applied at value 62. -/
theorem C7_quantize_witness :
    get_night_mode_step 62 ∈ night_mode_steps ∧
    (∀ t ∈ night_mode_steps, pyAbs (get_night_mode_step 62 - 62) ≤ pyAbs (t - 62)) ∧
    (∀ t ∈ night_mode_steps,
      pyAbs (t - 62) = pyAbs (get_night_mode_step 62 - 62) → get_night_mode_step 62 ≤ t) ∧
    get_night_mode_step 62 = 50 ∧ get_night_mode_step 37 = 25 :=
  C7_quantize 62 (by decide) (by decide)

/-- One night-mode adjustment whose target stays inside the step-75
quantization cell `[63, 87]` issues no monitor call and preserves the
cell invariants. -/
theorem night_step_no_write (cfg : Config) (m : ControlMapper) (d : Int) (ok : Bool)
    (hmin : m.night_mode.min = 0) (hmax : m.night_mode.max = 100)
    (hstep : m.current_night_mode_step = 75)
    (h1 : 63 ≤ m.night_mode.position + d) (h2 : m.night_mode.position + d ≤ 87) :
    (handle_night_mode_knob cfg m d ok).2.1 = [] ∧
    (handle_night_mode_knob cfg m d ok).1.night_mode.min = 0 ∧
    (handle_night_mode_knob cfg m d ok).1.night_mode.max = 100 ∧
    (handle_night_mode_knob cfg m d ok).1.night_mode.position =
      m.night_mode.position + d ∧
    (handle_night_mode_knob cfg m d ok).1.current_night_mode_step = 75 := by
  have hpos : (m.night_mode.adjust d).2.1 = m.night_mode.position + d := by
    simp only [VirtualKnob.adjust]
    omega
  have hq : get_night_mode_step ((m.night_mode.adjust d).2.1) = 75 := by
    rw [hpos]
    exact get_night_mode_step_eq_75 _ h1 h2
  have hchanged :
      (get_night_mode_step ((m.night_mode.adjust d).2.1) !=
        m.current_night_mode_step) = false := by
    rw [hq, hstep]
    decide
  refine ⟨?_, ?_, ?_, ?_, ?_⟩
  · simp [handle_night_mode_knob, hchanged]
  · simp [handle_night_mode_knob, VirtualKnob.adjust]
    exact hmin
  · simp [handle_night_mode_knob, VirtualKnob.adjust]
    exact hmax
  · simp [handle_night_mode_knob, VirtualKnob.adjust]
    omega
  · simp [handle_night_mode_knob, hchanged]
    exact hstep

/-- C3 counterexample: from the consistent state with continuous
night-mode position 80 and committed step 75, two adjustments of -5
drive the position through exactly 75 down to 70; the claim demands
exactly one device write of value 75 on that path, but zero monitor
calls are issued (80 and 70 quantize to the same step 75). -/
theorem C3_counterexample :
    (handle_night_mode_knob {} mapperAt80 (-5) true).1.night_mode.position = 75 ∧
    (handle_night_mode_knob {} mapperAt80 (-5) true).2.1 = [] ∧
    (runNight {} mapperAt80 [(-5, true), (-5, true)]).1.night_mode.position = 70 ∧
    (runNight {} mapperAt80 [(-5, true), (-5, true)]).2 = [] := by
  decide

/-- C3 amended: a night-mode adjustment issues a device write only when
the quantized step of the new position differs from the previously
committed step; consequently driving the continuous value from 80 to 70
issues zero device writes whether or not the path crosses 75, because
every position in `[63, 87]` — in particular 80, 75 and 70 — quantizes
to the committed step 75. -/
theorem C3_step_debounce :
    (∀ (cfg : Config) (m : ControlMapper) (d : Int) (ok : Bool),
       (handle_night_mode_knob cfg m d ok).2.1 ≠ [] →
       get_night_mode_step ((m.night_mode.adjust d).2.1) ≠
         m.current_night_mode_step) ∧
    (∀ (cfg : Config) (m : ControlMapper) (deltas : List (Int × Bool)),
       m.night_mode.min = 0 → m.night_mode.max = 100 →
       m.current_night_mode_step = 75 →
       inBand m.night_mode.position deltas = true →
       (runNight cfg m deltas).2 = []) := by
  constructor
  · intro cfg m d ok h
    by_cases hc : get_night_mode_step ((m.night_mode.adjust d).2.1) =
        m.current_night_mode_step
    · exfalso
      apply h
      have hchanged :
          (get_night_mode_step ((m.night_mode.adjust d).2.1) !=
            m.current_night_mode_step) = false := by
        rw [hc]
        simp
      simp [handle_night_mode_knob, hchanged]
    · exact hc
  · intro cfg m deltas
    induction deltas generalizing m with
    | nil =>
      intro _ _ _ _
      rfl
    | cons hd tl ih =>
      obtain ⟨d, ok⟩ := hd
      intro hmin hmax hstep hband
      simp only [inBand, Bool.and_eq_true, decide_eq_true_eq] at hband
      obtain ⟨⟨hb1, hb2⟩, hband'⟩ := hband
      obtain ⟨hw, hmin', hmax', hpos', hstep'⟩ :=
        night_step_no_write cfg m d ok hmin hmax hstep hb1 hb2
      simp only [runNight, hw, List.nil_append]
      exact ih _ hmin' hmax' hstep' (by rw [hpos']; exact hband')

/-- C3 witness: part one applied to the freshly initialized mapper with
delta -20 (position 100 → 80 crosses into the 75 cell, so a write fires
and the step changed), and part two applied to the state at position 80
with the two -5 adjustments that pass through 75. -/
theorem C3_step_debounce_witness :
    (get_night_mode_step ((ControlMapper.init.night_mode.adjust (-20)).2.1) ≠
      ControlMapper.init.current_night_mode_step) ∧
    (runNight {} mapperAt80 [(-5, true), (-5, true)]).2 = [] :=
  ⟨C3_step_debounce.1 {} ControlMapper.init (-20) true (by decide),
   C3_step_debounce.2 {} mapperAt80 [(-5, true), (-5, true)]
     rfl rfl rfl (by decide)⟩

/-- `pyInt` of an integer-valued rational is that integer. -/
theorem pyInt_intCast (n : Int) : pyInt ((n : ℚ)) = n := by
  simp [pyInt]

/-- The full write trace of `set_night_mode 150`: the unclamped intensity
150 yields green gain `60 + int(1.5 * 40) = 120` and blue gain
`20 + int(1.5 * 80) = 140` (the rational arithmetic is exact in binary
floating point at this input). -/
theorem set_night_mode_150_trace :
    (set_night_mode 150 true true true).2 =
      [DevEv.vcpWrite (vcp_codes "red_gain") 100,
       DevEv.vcpWrite (vcp_codes "green_gain") 120,
       DevEv.vcpWrite (vcp_codes "blue_gain") 140] := by
  have e1 : ((150 : Int) : ℚ) / 100 * 40 = ((60 : Int) : ℚ) := by norm_num
  have e2 : ((150 : Int) : ℚ) / 100 * 80 = ((120 : Int) : ℚ) := by norm_num
  norm_num [set_night_mode, e1, e2, pyInt_intCast]
  decide

/-- The full write trace of `set_night_mode 100`: the clamped-neutral
intensity 100 writes 100 to all three gains. -/
theorem set_night_mode_100_trace :
    (set_night_mode 100 true true true).2 =
      [DevEv.vcpWrite (vcp_codes "red_gain") 100,
       DevEv.vcpWrite (vcp_codes "green_gain") 100,
       DevEv.vcpWrite (vcp_codes "blue_gain") 100] := by
  have e1 : ((100 : Int) : ℚ) / 100 * 40 = ((40 : Int) : ℚ) := by norm_num
  have e2 : ((100 : Int) : ℚ) / 100 * 80 = ((80 : Int) : ℚ) := by norm_num
  norm_num [set_night_mode, e1, e2, pyInt_intCast]
  decide

/-- C4 counterexample: the claim covers `set_blue_gain` and
`set_night_mode` among the mutating operations, but when the (single)
write of either fails the operation returns failure immediately after
that one write attempt — no disconnect, no connect attempt, no retried
write — instead of the claimed reconnect cycle plus retry.  For
`set_night_mode` every later protocol call is set to succeed, so only
the missing retry path can explain the failure result. -/
theorem C4_counterexample :
    (set_blue_gain 50 false).1 = false ∧
    countDisconnects (set_blue_gain 50 false).2 = 0 ∧
    countConnects (set_blue_gain 50 false).2 = 0 ∧
    countWrites (set_blue_gain 50 false).2 = 1 ∧
    (set_night_mode 50 false true true).1 = false ∧
    countDisconnects (set_night_mode 50 false true true).2 = 0 ∧
    countConnects (set_night_mode 50 false true true).2 = 0 ∧
    countWrites (set_night_mode 50 false true true).2 = 1 := by
  decide

/-- C4 amended: only `set_brightness` implements the reconnect-and-retry
policy — a first write failure triggers exactly one disconnect and one
connect attempt, a retried write happens iff the reconnect succeeded,
and the operation succeeds iff the first write or that single retry
succeeds.  `set_blue_gain`, `set_night_mode` and `set_local_dimming`
never reconnect and never retry: they return failure as soon as a write
fails. -/
theorem C4_retry_policy :
    (∀ (v : Int) (o1 orc o2 : Bool),
       (set_brightness v o1 orc o2).1 = (o1 || (orc && o2)) ∧
       countDisconnects (set_brightness v o1 orc o2).2 = (if o1 then 0 else 1) ∧
       countConnects (set_brightness v o1 orc o2).2 = (if o1 then 0 else 1) ∧
       countWrites (set_brightness v o1 orc o2).2 =
         (if o1 then 1 else if orc then 2 else 1)) ∧
    (∀ (v : Int) (ok : Bool),
       (set_blue_gain v ok).1 = ok ∧
       countDisconnects (set_blue_gain v ok).2 = 0 ∧
       countConnects (set_blue_gain v ok).2 = 0 ∧
       countWrites (set_blue_gain v ok).2 = 1) ∧
    (∀ (i : Int) (o1 o2 o3 : Bool),
       (set_night_mode i o1 o2 o3).1 = (o1 && (o2 && o3)) ∧
       countDisconnects (set_night_mode i o1 o2 o3).2 = 0 ∧
       countConnects (set_night_mode i o1 o2 o3).2 = 0) ∧
    (∀ (b ok : Bool),
       (set_local_dimming b ok).1 = ok ∧
       countDisconnects (set_local_dimming b ok).2 = 0 ∧
       countConnects (set_local_dimming b ok).2 = 0 ∧
       countWrites (set_local_dimming b ok).2 = 1) := by
  refine ⟨fun v o1 orc o2 => ?_, fun v ok => ?_, fun i o1 o2 o3 => ?_,
    fun b ok => ?_⟩
  · rcases o1 <;> rcases orc <;> rcases o2 <;>
      simp [set_brightness, countDisconnects, countConnects,
        countWrites, List.countP_cons, List.countP_nil]
  · rcases ok <;>
      simp [set_blue_gain, countDisconnects, countConnects, countWrites,
        List.countP_cons, List.countP_nil]
  · rcases o1 <;> rcases o2 <;> rcases o3 <;>
      simp [set_night_mode, countDisconnects, countConnects,
        List.countP_cons, List.countP_nil]
  · rcases b <;> rcases ok <;>
      simp [set_local_dimming, countDisconnects, countConnects, countWrites,
        List.countP_cons, List.countP_nil]

/-- C5 counterexample: the first raw sample for control id 1 yields delta
0 and stores the sample as the baseline, but handling the resulting knob
event with the freshly initialized mapper DOES issue a device write —
`set_brightness 75`, the unchanged position — contradicting the claim's
"issues no device write when the resulting event is handled". -/
theorem C5_counterexample :
    (read_event 1 [] (MidoMsg.control_change 1 64)).1 =
      some ⟨"knob", 1, 64, some 0⟩ ∧
    (read_event 1 [] (MidoMsg.control_change 1 64)).2 = [(1, 64)] ∧
    (handle_event {} ControlMapper.init ⟨"knob", 1, 64, some 0⟩ true).2.1 =
      [MonCall.set_brightness 75] := by
  decide

/-- C5 amended: the first raw sample of an unobserved control id yields
delta 0 and is stored as the new baseline; handling the resulting event
issues no DDC write for the night-mode knob (the quantized step is
unchanged), but the brightness handler still issues a device write of the
(unchanged) clamped position. -/
theorem C5_first_observation :
    (∀ (sens : ℚ) (prev : List (Int × Int)) (id v : Int),
       dictLookup prev id = none →
       calculate_absolute_delta sens prev id v = (0, dictInsert prev id v) ∧
       dictLookup (dictInsert prev id v) id = some v) ∧
    (∀ (cfg : Config) (m : ControlMapper) (ok : Bool),
       m.brightness.min ≤ m.brightness.position →
       m.brightness.position ≤ m.brightness.max →
       (handle_brightness_knob cfg m 0 ok).2.1 =
         [MonCall.set_brightness m.brightness.position]) ∧
    (∀ (cfg : Config) (m : ControlMapper) (ok : Bool),
       get_night_mode_step ((m.night_mode.adjust 0).2.1) =
         m.current_night_mode_step →
       (handle_night_mode_knob cfg m 0 ok).2.1 = []) := by
  refine ⟨fun sens prev id v h => ?_, fun cfg m ok h1 h2 => ?_,
    fun cfg m ok h => ?_⟩
  · refine ⟨?_, dictLookup_dictInsert_self prev id v⟩
    simp [calculate_absolute_delta, h]
  · have hpos : (m.brightness.adjust 0).2.1 = m.brightness.position := by
      simp only [VirtualKnob.adjust]
      omega
    simp [handle_brightness_knob, hpos]
  · have hchanged :
        (get_night_mode_step ((m.night_mode.adjust 0).2.1) !=
          m.current_night_mode_step) = false := by
      rw [h]
      simp
    simp [handle_night_mode_knob, hchanged]

/-- C5 witness: the amended theorem applied to the empty baseline dict
with sample 64 for id 1, and to the freshly initialized mapper. -/
theorem C5_first_observation_witness :
    (calculate_absolute_delta 1 [] 1 64 = (0, dictInsert [] 1 64) ∧
      dictLookup (dictInsert [] 1 64) 1 = some 64) ∧
    (handle_brightness_knob {} ControlMapper.init 0 true).2.1 =
      [MonCall.set_brightness ControlMapper.init.brightness.position] ∧
    (handle_night_mode_knob {} ControlMapper.init 0 true).2.1 = [] :=
  ⟨C5_first_observation.1 1 [] 1 64 rfl,
   C5_first_observation.2.1 {} ControlMapper.init true (by decide) (by decide),
   C5_first_observation.2.2 {} ControlMapper.init true (by decide)⟩

/-- C6: for every sequence of raw samples in `[0, 127]` for one control
id that ends at the value it started from, the sum of the
wraparound-corrected raw deltas over the sequence is congruent to 0
modulo 128. -/
theorem C6_closed_loop (start : Int) (samples : List Int)
    (hstart : 0 ≤ start ∧ start ≤ 127)
    (hrange : ∀ x ∈ samples, 0 ≤ x ∧ x ≤ 127)
    (hloop : samples.getLastD start = start) :
    sumCorrectedDeltas start samples % 128 = 0 := by
  have h := sumCorrectedDeltas_mod samples start
  rw [hloop] at h
  omega

/-- C6 witness: a loop from 10 through the wrap boundary back to 10
(both constituent deltas are wrap-corrected: +110 becomes -18, -110
becomes +18). -/
theorem C6_closed_loop_witness :
    sumCorrectedDeltas 10 [120, 10] % 128 = 0 :=
  C6_closed_loop 10 [120, 10] (by decide) (by decide) (by decide)

/-- C8 counterexample: `set_brightness 150` does transmit the clamped
value 100, but `set_night_mode 150` derives its channel writes from the
UNCLAMPED intensity: it writes green gain 120 and blue gain 140, whereas
clamping the intensity first (to 100) would write 100 to both. -/
theorem C8_counterexample :
    (set_brightness 150 true true true).2 =
      [DevEv.vcpWrite (vcp_codes "brightness") 100] ∧
    (set_night_mode 150 true true true).2 =
      [DevEv.vcpWrite (vcp_codes "red_gain") 100,
       DevEv.vcpWrite (vcp_codes "green_gain") 120,
       DevEv.vcpWrite (vcp_codes "blue_gain") 140] ∧
    (set_night_mode 100 true true true).2 =
      [DevEv.vcpWrite (vcp_codes "red_gain") 100,
       DevEv.vcpWrite (vcp_codes "green_gain") 100,
       DevEv.vcpWrite (vcp_codes "blue_gain") 100] ∧
    (120 : Int) ≠ 100 :=
  ⟨by decide, set_night_mode_150_trace, set_night_mode_100_trace, by decide⟩

/-- C8 amended: `set_brightness` and `set_blue_gain` clamp their input to
`[0, 100]` before every transmission (every write in any of their traces
carries the clamped value; in particular 150 transmits as 100 and -5 as
0), and `set_local_dimming` encodes its boolean as 1/0; `set_night_mode`
however does NOT clamp its intensity argument — intensity 150 produces
channel writes red 100, green 120, blue 140. -/
theorem C8_input_clamping :
    (∀ (v : Int) (o1 orc o2 : Bool),
       ((set_brightness v o1 orc o2).2.all (fun e =>
           e == DevEv.disconnect || e == DevEv.connectAttempt ||
           e == DevEv.vcpWrite (vcp_codes "brightness")
                  (Max.max 0 (Min.min 100 v)))) = true) ∧
    (∀ (v : Int) (ok : Bool),
       (set_blue_gain v ok).2 =
         [DevEv.vcpWrite (vcp_codes "blue_gain") (Max.max 0 (Min.min 100 v))]) ∧
    (∀ (b ok : Bool),
       (set_local_dimming b ok).2 =
         [DevEv.vcpWrite (vcp_codes "local_dimming") (if b then 1 else 0)]) ∧
    (set_brightness 150 true true true).2 =
      [DevEv.vcpWrite (vcp_codes "brightness") 100] ∧
    (set_brightness (-5) true true true).2 =
      [DevEv.vcpWrite (vcp_codes "brightness") 0] ∧
    (set_night_mode 150 true true true).2 =
      [DevEv.vcpWrite (vcp_codes "red_gain") 100,
       DevEv.vcpWrite (vcp_codes "green_gain") 120,
       DevEv.vcpWrite (vcp_codes "blue_gain") 140] := by
  refine ⟨fun v o1 orc o2 => ?_, fun v ok => rfl, fun b ok => ?_,
    by decide, by decide, set_night_mode_150_trace⟩
  · rcases o1 <;> rcases orc <;> rcases o2 <;>
      simp [set_brightness, List.all_cons, List.all_nil]
  · rcases b <;> rcases ok <;> simp [set_local_dimming]

/-- C9 counterexample: with HDR currently off, a press of the HDR button
leaves the stored boolean at `false` (its negation would be `true`) and
issues no device write at all, contrary to the claim. -/
theorem C9_counterexample :
    ControlMapper.init.hdr_enabled = false ∧
    (!ControlMapper.init.hdr_enabled) = true ∧
    (handle_hdr_button {} ControlMapper.init).1.hdr_enabled = false ∧
    (handle_hdr_button {} ControlMapper.init).2.1 = [] := by
  decide

/-- C9 amended: the local-dimming button behaves exactly as the claim
states — each press replaces the stored boolean by its negation, invokes
`set_local_dimming` with the new value, and sets the button LED to the
new boolean, unconditionally (the output is independent of the boolean
the device write returns).  The HDR button is a placeholder: it stores
`false` unconditionally, issues no device write, and sets its LED to
`false`. -/
theorem C9_toggle_buttons :
    (∀ (cfg : Config) (m : ControlMapper) (ok : Bool),
       (handle_local_dimming_button cfg m ok).1.local_dimming_enabled =
         !m.local_dimming_enabled ∧
       (handle_local_dimming_button cfg m ok).2.1 =
         [MonCall.set_local_dimming (!m.local_dimming_enabled)] ∧
       (handle_local_dimming_button cfg m ok).2.2 =
         [MidiOut.buttonLed cfg.button_local_dimming (!m.local_dimming_enabled)] ∧
       handle_local_dimming_button cfg m ok =
         handle_local_dimming_button cfg m true) ∧
    (∀ (cfg : Config) (m : ControlMapper),
       (handle_hdr_button cfg m).1.hdr_enabled = false ∧
       (handle_hdr_button cfg m).2.1 = [] ∧
       (handle_hdr_button cfg m).2.2 = [MidiOut.buttonLed cfg.button_hdr false]) :=
  ⟨fun _ _ _ => ⟨rfl, rfl, rfl, rfl⟩, fun _ _ => ⟨rfl, rfl, rfl⟩⟩

/-- C10: `read_event` yields a button event exactly for note-on messages
with velocity strictly greater than 0; note-on with velocity 0 and
note-off messages yield no event and leave the stored per-knob baseline
dict unchanged. -/
theorem C10_read_event :
    (∀ (sens : ℚ) (prev : List (Int × Int)) (note velocity : Int),
       0 < velocity →
       read_event sens prev (MidoMsg.note_on note velocity) =
         (some ⟨"button", note, velocity, none⟩, prev)) ∧
    (∀ (sens : ℚ) (prev : List (Int × Int)) (note : Int),
       read_event sens prev (MidoMsg.note_on note 0) = (none, prev)) ∧
    (∀ (sens : ℚ) (prev : List (Int × Int)) (note velocity : Int),
       read_event sens prev (MidoMsg.note_off note velocity) = (none, prev)) ∧
    (∀ (sens : ℚ) (prev : List (Int × Int)) (msg : MidoMsg)
       (e : MIDIEvent) (st : List (Int × Int)),
       read_event sens prev msg = (some e, st) → e.control_type = "button" →
       ∃ note velocity, msg = MidoMsg.note_on note velocity ∧ 0 < velocity) := by
  refine ⟨?_, ?_, ?_, ?_⟩
  · intro sens prev note velocity h
    simp [read_event, h]
  · intro sens prev note
    simp [read_event]
  · intro sens prev note velocity
    rfl
  · intro sens prev msg e st h htype
    cases msg with
    | control_change c v =>
      simp only [read_event, Prod.mk.injEq, Option.some.injEq] at h
      rw [← h.1] at htype
      simp at htype
    | note_on n vel =>
      by_cases hv : vel > 0
      · exact ⟨n, vel, rfl, hv⟩
      · simp [read_event, hv] at h
    | note_off n vel =>
      simp [read_event] at h
    | other =>
      simp [read_event] at h

/-- C10 witness: the theorem applied to concrete note messages. -/
theorem C10_read_event_witness :
    read_event 1 [] (MidoMsg.note_on 5 7) = (some ⟨"button", 5, 7, none⟩, []) ∧
    read_event 1 [] (MidoMsg.note_on 5 0) = (none, []) ∧
    read_event 1 [] (MidoMsg.note_off 5 0) = (none, []) ∧
    (∃ note velocity,
      MidoMsg.note_on 3 2 = MidoMsg.note_on note velocity ∧ 0 < velocity) :=
  ⟨C10_read_event.1 1 [] 5 7 (by decide),
   C10_read_event.2.1 1 [] 5,
   C10_read_event.2.2.1 1 [] 5 0,
   C10_read_event.2.2.2 1 [] (MidoMsg.note_on 3 2) ⟨"button", 3, 2, none⟩ []
     (by decide) (by decide)⟩

end MidiMonitor
